import Mathlib

/-!
Shallow embedding of the librepcb-parts-generator core:
`entities/package.py` (entity tree and canonical serializer),
`generate_led.py` and `generate_connectors.py` (identity cache usage and
pad geometry).

Python floats are embedded as rationals (callers of the library round to a
fixed number of decimal places, so the values of interest are exact decimal
fractions).  Python strings are embedded as Lean `String`; comparison of
strings is embedded as lexicographic comparison of their character lists,
matching the code-point comparison Python performs.  The random
`uuid4`-minting on a cache miss is embedded as a deterministic injective
fresh-identifier supply, matching the contract relied on by the source
(each miss yields an identifier distinct from every other issued one).
-/

namespace LibrePCB

/-! ## Identity cache (`init_cache` / `uuid` functions of the generators)

The cache is a mapping from string keys to identifier strings.  A Python
dict is embedded as an association list with first-match lookup; the
generators only ever extend it (`uuid_cache[key] = str(uuid4())` on a
miss), never overwrite an entry. -/

/-- Fresh-identifier supply standing in for `str(uuid4())`: the n-th minted
identifier.  Injectivity models the globally-unique minting contract. -/
def mint (n : Nat) : String := ⟨List.replicate (n + 1) 'u'⟩

/-- First-match lookup in an association list: model of `key in dict`
followed by `dict[key]`. -/
def lookupCache : List (String × String) → String → Option String
  | [], _ => none
  | (k, v) :: rest, key => if k = key then some v else lookupCache rest key

/-- The mutable `uuid_cache` dict plus the state of the fresh supply. -/
structure Cache where
  table : List (String × String)
  ctr : Nat

/-- A freshly initialized cache (`init_cache` on a missing file). -/
def emptyCache : Cache := { table := [], ctr := 0 }

/-- Model of the shared memoization core of both generator `uuid`
functions: `if key not in uuid_cache: uuid_cache[key] = str(uuid4());
return uuid_cache[key]`. -/
def resolve (c : Cache) (key : String) : String × Cache :=
  match lookupCache c.table key with
  | some v => (v, c)
  | none => (mint c.ctr, { table := (key, mint c.ctr) :: c.table, ctr := c.ctr + 1 })

/-- Resolve a list of keys in order, keeping only the final cache. -/
def resolveList (c : Cache) (ks : List String) : Cache :=
  ks.foldl (fun c k => (resolve c k).2) c

/-- Well-formedness of a cache: every stored identifier was minted at a
counter value below the current one, and distinct keys hold distinct
identifiers (spec 4.5: the mapping is a bijection in practice). -/
def CacheWF (c : Cache) : Prop :=
  (∀ p ∈ c.table, ∃ m, m < c.ctr ∧ p.2 = mint m) ∧
  (∀ p ∈ c.table, ∀ q ∈ c.table, p.2 = q.2 → p.1 = q.1)

/-! ## Key normalization (`.lower().replace(' ', '~')`) -/

/-- One character of `key.lower().replace(' ', '~')`.  `.lower()` is
embedded for the ASCII alphabet, the alphabet all generator keys use. -/
def normChar (c : Char) : Char :=
  if Char.toLower c = ' ' then '~' else Char.toLower c

/-- `s.lower().replace(' ', '~')` applied to a whole string. -/
def normStr (s : String) : String := ⟨s.data.map normChar⟩

/-! ## Primitive value renderings

Modelled from the spec: the primitive value classes live in
`entities/common.py` and `common.py`, which are not part of the provided
sources; only their subclasses in `entities/package.py` are.  Per spec 4.1,
free-text fields render quoted with quotes and newlines escaped, booleans
render as lowercase tokens, enumerated values render as a fixed lowercase
token after the field tag, floats render in minimal decimal form, and an
identifier reference renders as the identifier after its field tag. -/

/-- Modelled from the spec: escaping of a free-text character inside a
quoted field (quote and newline escapes). -/
def escChar (c : Char) : List Char :=
  if c = '\x22' then ['\\', '\x22']
  else if c = '\n' then ['\\', 'n']
  else [c]

/-- Modelled from the spec: quoted free-text rendering. -/
def quoted (s : String) : String :=
  "\x22" ++ ⟨s.data.foldr (fun c acc => escChar c ++ acc) []⟩ ++ "\x22"

/-- Modelled from the spec: boolean token rendering. -/
def boolToken (b : Bool) : String := if b then "true" else "false"

/-- Modelled from the spec (`common.format_float`): fixed-point rendering
with up to three decimals, trailing zeros stripped, at least one decimal
kept, never exponential. -/
def formatFloat (x : ℚ) : String :=
  let neg : Bool := decide (x < 0)
  let ax : ℚ := if x < 0 then -x else x
  let scaled : ℤ := ⌊ax * 1000 + 1 / 2⌋
  let ip : Nat := (scaled / 1000).toNat
  let fr : Nat := (scaled % 1000).toNat
  let d1 : Nat := fr / 100
  let d2 : Nat := fr / 10 % 10
  let d3 : Nat := fr % 10
  let frac : String :=
    if d3 ≠ 0 then toString d1 ++ toString d2 ++ toString d3
    else if d2 ≠ 0 then toString d1 ++ toString d2
    else toString d1
  (if neg then "-" else "") ++ toString ip ++ "." ++ frac

def nameStr (v : String) : String := "(name " ++ quoted v ++ ")"

def descriptionStr (v : String) : String := "(description " ++ quoted v ++ ")"

def keywordsStr (v : String) : String := "(keywords " ++ quoted v ++ ")"

def authorStr (v : String) : String := "(author " ++ quoted v ++ ")"

def versionStr (v : String) : String := "(version " ++ quoted v ++ ")"

def createdStr (v : String) : String := "(created " ++ v ++ ")"

def deprecatedStr (b : Bool) : String := "(deprecated " ++ boolToken b ++ ")"

def generatedByStr (v : String) : String := "(generated_by " ++ quoted v ++ ")"

def categoryStr (u : String) : String := "(category " ++ u ++ ")"

def layerStr (v : String) : String := "(layer " ++ v ++ ")"

def valueStr (v : String) : String := "(value " ++ quoted v ++ ")"

def alignStr (v : String) : String := "(align " ++ v ++ ")"

def heightStr (v : ℚ) : String := "(height " ++ formatFloat v ++ ")"

def rotationStr (v : ℚ) : String := "(rotation " ++ formatFloat v ++ ")"

def angleStr (v : ℚ) : String := "(angle " ++ formatFloat v ++ ")"

def widthStr (v : ℚ) : String := "(width " ++ formatFloat v ++ ")"

def fillStr (b : Bool) : String := "(fill " ++ boolToken b ++ ")"

def grabAreaStr (b : Bool) : String := "(grab_area " ++ boolToken b ++ ")"

def diameterStr (v : ℚ) : String := "(diameter " ++ formatFloat v ++ ")"

/-- Geometric position (`entities/common.py` `Position`). -/
structure Position where
  x : ℚ
  y : ℚ

def positionStr (p : Position) : String :=
  "(position " ++ formatFloat p.x ++ " " ++ formatFloat p.y ++ ")"

structure Position3D where
  x : ℚ
  y : ℚ
  z : ℚ

def position3DStr (p : Position3D) : String :=
  "(3d_position " ++ formatFloat p.x ++ " " ++ formatFloat p.y ++ " "
    ++ formatFloat p.z ++ ")"

structure Rotation3D where
  x : ℚ
  y : ℚ
  z : ℚ

def rotation3DStr (p : Rotation3D) : String :=
  "(3d_rotation " ++ formatFloat p.x ++ " " ++ formatFloat p.y ++ " "
    ++ formatFloat p.z ++ ")"

/-- Vertex of a polygon contour (`entities/common.py` `Vertex`). -/
structure Vertex where
  position : Position
  angle : ℚ

def vertexStr (v : Vertex) : String :=
  "(vertex " ++ positionStr v.position ++ " " ++ angleStr v.angle ++ ")"

/-- Python string comparison (`a < b` on `str`): lexicographic comparison
of the code-point sequences. -/
def pyStrLt (a b : String) : Bool := decide (a.data < b.data)

/-- Model of Python `sorted` with key-less comparison: a stable
insertion sort driven by a boolean `le` test (`le a b` means `a` may stay
in front of `b`). -/
def insertLe {α : Type} (le : α → α → Bool) (a : α) : List α → List α
  | [] => [a]
  | b :: bs => if le a b then a :: b :: bs else b :: insertLe le a bs

def pySorted {α : Type} (le : α → α → Bool) : List α → List α
  | [] => []
  | a :: as => insertLe le a (pySorted le as)

/-! ## Indentation (`entities/helper.py`, not in the provided sources)

Modelled from the spec: each child entity is rendered, newline-terminated,
and indented by one additional leading space per nesting level, empty
lines staying unindented. -/

/-- Prefix every nonempty line with one space.  The flag says whether the
scan currently sits at the start of a line. -/
def indentCore : Bool → List Char → List Char
  | _, [] => []
  | atStart, c :: cs =>
    if c = '\n' then c :: indentCore true cs
    else if atStart then ' ' :: c :: indentCore false cs
    else c :: indentCore false cs

def indentText (t : String) : String := ⟨indentCore true t.data⟩

/-- Modelled from the spec (`entities/helper.py` `indent_entities`): each
entity rendering gets a trailing newline and one level of indentation. -/
def indentEntities (xs : List String) : String :=
  String.join (xs.map fun s => indentText (s ++ "\n"))

/-! ## Entity tree (`entities/package.py`) -/

/-- A 3D model in a package. -/
structure Package3DModel where
  uuid : String
  name : String
deriving DecidableEq

def Package3DModel.str (m : Package3DModel) : String :=
  "(3d_model " ++ m.uuid ++ " " ++ nameStr m.name ++ ")\n"

/-- `Package3DModel.__eq__`. -/
def Package3DModel.eqB (a b : Package3DModel) : Bool :=
  decide (a.uuid = b.uuid) && decide (a.name = b.name)

/-- `Package3DModel.__lt__`. -/
def Package3DModel.ltB (a b : Package3DModel) : Bool :=
  if a.uuid = b.uuid then pyStrLt a.name b.name else pyStrLt a.uuid b.uuid

/-- A 3D model reference in a footprint. -/
structure Footprint3DModel where
  uuid : String

def Footprint3DModel.str (m : Footprint3DModel) : String :=
  "(3d_model " ++ m.uuid ++ ")\n"

/-- `Footprint3DModel.__eq__`. -/
def Footprint3DModel.eqB (a b : Footprint3DModel) : Bool :=
  decide (a.uuid = b.uuid)

/-- `Footprint3DModel.__lt__`. -/
def Footprint3DModel.ltB (a b : Footprint3DModel) : Bool :=
  pyStrLt a.uuid b.uuid

inductive AssemblyType where
  | NONE | THT | SMT | MIXED | OTHER | AUTO

def AssemblyType.token : AssemblyType → String
  | NONE => "none"
  | THT => "tht"
  | SMT => "smt"
  | MIXED => "mixed"
  | OTHER => "other"
  | AUTO => "auto"

def assemblyTypeStr (a : AssemblyType) : String :=
  "(assembly_type " ++ a.token ++ ")"

structure PackagePad where
  uuid : String
  name : String

def PackagePad.str (p : PackagePad) : String :=
  "(pad " ++ p.uuid ++ " " ++ nameStr p.name ++ ")"

inductive LetterSpacing where
  | AUTO

def letterSpacingStr : LetterSpacing → String
  | LetterSpacing.AUTO => "(letter_spacing auto)"

inductive LineSpacing where
  | AUTO

def lineSpacingStr : LineSpacing → String
  | LineSpacing.AUTO => "(line_spacing auto)"

structure StrokeText where
  uuid : String
  layer : String
  height : ℚ
  stroke_width : ℚ
  letter_spacing : LetterSpacing
  line_spacing : LineSpacing
  align : String
  position : Position
  rotation : ℚ
  auto_rotate : Bool
  mirror : Bool
  value : String

def strokeWidthStr (v : ℚ) : String := "(stroke_width " ++ formatFloat v ++ ")"

def autoRotateStr (b : Bool) : String := "(auto_rotate " ++ boolToken b ++ ")"

def mirrorStr (b : Bool) : String := "(mirror " ++ boolToken b ++ ")"

def StrokeText.str (t : StrokeText) : String :=
  "(stroke_text " ++ t.uuid ++ " " ++ layerStr t.layer ++ "\n"
    ++ " " ++ heightStr t.height ++ " " ++ strokeWidthStr t.stroke_width ++ " "
    ++ letterSpacingStr t.letter_spacing ++ " " ++ lineSpacingStr t.line_spacing ++ "\n"
    ++ " " ++ alignStr t.align ++ " " ++ positionStr t.position ++ " "
    ++ rotationStr t.rotation ++ "\n"
    ++ " " ++ autoRotateStr t.auto_rotate ++ " " ++ mirrorStr t.mirror ++ " "
    ++ valueStr t.value ++ "\n)"

inductive ComponentSide where
  | TOP | BOTTOM

def componentSideStr : ComponentSide → String
  | ComponentSide.TOP => "(side top)"
  | ComponentSide.BOTTOM => "(side bottom)"

inductive Shape where
  | ROUNDED_RECT | ROUNDED_OCTAGON | CUSTOM

def shapeStr : Shape → String
  | Shape.ROUNDED_RECT => "(shape roundrect)"
  | Shape.ROUNDED_OCTAGON => "(shape octagon)"
  | Shape.CUSTOM => "(shape custom)"

structure Size where
  width : ℚ
  height : ℚ

def Size.str (s : Size) : String :=
  "(size " ++ formatFloat s.width ++ " " ++ formatFloat s.height ++ ")"

inductive StopMaskConfig where
  | AUTO | OFF

def stopMaskStr : StopMaskConfig → String
  | StopMaskConfig.AUTO => "(stop_mask auto)"
  | StopMaskConfig.OFF => "(stop_mask off)"

inductive SolderPasteConfig where
  | AUTO | OFF

def solderPasteStr : SolderPasteConfig → String
  | SolderPasteConfig.AUTO => "(solder_paste auto)"
  | SolderPasteConfig.OFF => "(solder_paste off)"

def shapeRadiusStr (v : ℚ) : String := "(radius " ++ formatFloat v ++ ")"

def copperClearanceStr (v : ℚ) : String := "(clearance " ++ formatFloat v ++ ")"

def packagePadUuidStr (u : String) : String := "(package_pad " ++ u ++ ")"

inductive PadFunction where
  | UNSPECIFIED | STANDARD_PAD | PRESSFIT_PAD | THERMAL_PAD | BGA_PAD
  | EDGE_CONNECTOR_PAD | TEST_PAD | LOCAL_FIDUCIAL | GLOBAL_FIDUCIAL

def padFunctionStr : PadFunction → String
  | PadFunction.UNSPECIFIED => "(function unspecified)"
  | PadFunction.STANDARD_PAD => "(function standard)"
  | PadFunction.PRESSFIT_PAD => "(function pressfit)"
  | PadFunction.THERMAL_PAD => "(function thermal)"
  | PadFunction.BGA_PAD => "(function bga)"
  | PadFunction.EDGE_CONNECTOR_PAD => "(function edge_connector)"
  | PadFunction.TEST_PAD => "(function test)"
  | PadFunction.LOCAL_FIDUCIAL => "(function local_fiducial)"
  | PadFunction.GLOBAL_FIDUCIAL => "(function global_fiducial)"

def drillDiameterStr (v : ℚ) : String := "(diameter " ++ formatFloat v ++ ")"

structure PadHole where
  uuid : String
  diameter : ℚ
  vertices : List Vertex

def PadHole.str (h : PadHole) : String :=
  "(hole " ++ h.uuid ++ " " ++ drillDiameterStr h.diameter ++ "\n"
    ++ indentEntities (h.vertices.map vertexStr) ++ ")"

structure FootprintPad where
  uuid : String
  side : ComponentSide
  shape : Shape
  position : Position
  rotation : ℚ
  size : Size
  radius : ℚ
  stop_mask : StopMaskConfig
  solder_paste : SolderPasteConfig
  copper_clearance : ℚ
  function : PadFunction
  package_pad : String
  holes : List PadHole

def FootprintPad.str (p : FootprintPad) : String :=
  "(pad " ++ p.uuid ++ " " ++ componentSideStr p.side ++ " " ++ shapeStr p.shape ++ "\n"
    ++ " " ++ positionStr p.position ++ " " ++ rotationStr p.rotation ++ " "
    ++ p.size.str ++ " " ++ shapeRadiusStr p.radius ++ "\n"
    ++ " " ++ stopMaskStr p.stop_mask ++ " " ++ solderPasteStr p.solder_paste ++ " "
    ++ copperClearanceStr p.copper_clearance ++ " " ++ padFunctionStr p.function ++ "\n"
    ++ " " ++ packagePadUuidStr p.package_pad ++ "\n"
    ++ indentEntities (p.holes.map PadHole.str) ++ ")"

/-- Styled polygon (`entities/common.py` `Polygon`; rendering modelled from
the spec, vertex order preserved exactly). -/
structure Polygon where
  uuid : String
  layer : String
  width : ℚ
  fill : Bool
  grab_area : Bool
  vertices : List Vertex

def Polygon.add_vertex (p : Polygon) (v : Vertex) : Polygon :=
  { p with vertices := p.vertices ++ [v] }

def Polygon.str (p : Polygon) : String :=
  "(polygon " ++ p.uuid ++ " " ++ layerStr p.layer ++ "\n"
    ++ " " ++ widthStr p.width ++ " " ++ fillStr p.fill ++ " "
    ++ grabAreaStr p.grab_area ++ "\n"
    ++ indentEntities (p.vertices.map vertexStr) ++ ")"

/-- Styled circle (`entities/common.py` `Circle`; rendering modelled from
the spec). -/
structure Circle where
  uuid : String
  layer : String
  width : ℚ
  fill : Bool
  grab_area : Bool
  diameter : ℚ
  position : Position

def Circle.str (c : Circle) : String :=
  "(circle " ++ c.uuid ++ " " ++ layerStr c.layer ++ "\n"
    ++ " " ++ widthStr c.width ++ " " ++ fillStr c.fill ++ " "
    ++ grabAreaStr c.grab_area ++ " " ++ diameterStr c.diameter ++ " "
    ++ positionStr c.position ++ "\n)"

structure Footprint where
  uuid : String
  name : String
  description : String
  position_3d : Position3D
  rotation_3d : Rotation3D
  pads : List FootprintPad := []
  models_3d : List Footprint3DModel := []
  polygons : List Polygon := []
  circles : List Circle := []
  texts : List StrokeText := []

def Footprint.add_pad (f : Footprint) (p : FootprintPad) : Footprint :=
  { f with pads := f.pads ++ [p] }

def Footprint.add_3d_model (f : Footprint) (m : Footprint3DModel) : Footprint :=
  { f with models_3d := f.models_3d ++ [m] }

def Footprint.add_polygon (f : Footprint) (p : Polygon) : Footprint :=
  { f with polygons := f.polygons ++ [p] }

def Footprint.add_circle (f : Footprint) (c : Circle) : Footprint :=
  { f with circles := f.circles ++ [c] }

def Footprint.add_text (f : Footprint) (t : StrokeText) : Footprint :=
  { f with texts := f.texts ++ [t] }

/-- `Footprint.__str__`: header, then the 3D models sorted by the sibling
comparison, then pads, polygons, circles and texts in insertion order. -/
def Footprint.str (f : Footprint) : String :=
  "(footprint " ++ f.uuid ++ "\n"
    ++ " " ++ nameStr f.name ++ "\n"
    ++ " " ++ descriptionStr f.description ++ "\n"
    ++ " " ++ position3DStr f.position_3d ++ " " ++ rotation3DStr f.rotation_3d ++ "\n"
    ++ indentEntities ((pySorted (fun a b => !Footprint3DModel.ltB b a) f.models_3d).map
        Footprint3DModel.str)
    ++ indentEntities (f.pads.map FootprintPad.str)
    ++ indentEntities (f.polygons.map Polygon.str)
    ++ indentEntities (f.circles.map Circle.str)
    ++ indentEntities (f.texts.map StrokeText.str)
    ++ ")"

structure Package where
  uuid : String
  name : String
  description : String
  keywords : String
  author : String
  version : String
  created : String
  deprecated : Bool
  generated_by : String
  categories : List String
  assembly_type : AssemblyType
  pads : List PackagePad := []
  models_3d : List Package3DModel := []
  footprints : List Footprint := []
  approvals : List String := []

def Package.add_pad (p : Package) (pad : PackagePad) : Package :=
  { p with pads := p.pads ++ [pad] }

def Package.add_footprint (p : Package) (f : Footprint) : Package :=
  { p with footprints := p.footprints ++ [f] }

def Package.add_3d_model (p : Package) (m : Package3DModel) : Package :=
  { p with models_3d := p.models_3d ++ [m] }

def Package.add_approval (p : Package) (a : String) : Package :=
  { p with approvals := p.approvals ++ [a] }

/-- The metadata lines of `Package.__str__` between the opening tag line
and the child sections. -/
def Package.metaStr (p : Package) : String :=
  " " ++ nameStr p.name ++ "\n"
    ++ " " ++ descriptionStr p.description ++ "\n"
    ++ " " ++ keywordsStr p.keywords ++ "\n"
    ++ " " ++ authorStr p.author ++ "\n"
    ++ " " ++ versionStr p.version ++ "\n"
    ++ " " ++ createdStr p.created ++ "\n"
    ++ " " ++ deprecatedStr p.deprecated ++ "\n"
    ++ " " ++ generatedByStr p.generated_by ++ "\n"
    ++ String.join (p.categories.map fun cat => " " ++ categoryStr cat ++ "\n")
    ++ " " ++ assemblyTypeStr p.assembly_type ++ "\n"

/-- `Package.__str__`: tag line, metadata, then pads, 3D models (in
insertion order, exactly as the source emits them), footprints, and the
approvals sorted as strings. -/
def Package.str (p : Package) : String :=
  "(librepcb_package " ++ p.uuid ++ "\n"
    ++ p.metaStr
    ++ indentEntities (p.pads.map PackagePad.str)
    ++ indentEntities (p.models_3d.map Package3DModel.str)
    ++ indentEntities (p.footprints.map Footprint.str)
    ++ indentEntities (pySorted (fun a b => !pyStrLt b a) p.approvals)
    ++ ")"

/-- `os.path.join` for the relative paths the generators build. -/
def pathJoin (a b : String) : String := a ++ "/" ++ b

/-- `Package.serialize`, with the filesystem effect embedded as the list of
(path, content) writes it performs (directory creation elided: it writes no
file).  One version marker file and one document file, both in the
directory named by the package uuid. -/
def Package.serializeWrites (p : Package) (output_directory : String) :
    List (String × String) :=
  let dir_path := pathJoin output_directory p.uuid
  [ (pathJoin dir_path ".librepcb-pkg", "1\n"),
    (pathJoin dir_path "package.lp", p.str ++ "\n") ]

namespace GenerateLed

/-- The cache key built by `generate_led.uuid`:
`'{}-{}-{}'.format(category, full_name, identifier).lower().replace(' ', '~')`. -/
def ledKey (category full_name identifier : String) : String :=
  normStr (category ++ "-" ++ full_name ++ "-" ++ identifier)

/-- `generate_led.uuid`: resolve the normalized key against the cache. -/
def uuid (c : Cache) (category full_name identifier : String) : String × Cache :=
  resolve c (ledKey category full_name identifier)

/-! ### The LED generator

`generate_pkg` and `generate_dev` are embedded by the identifier
assignment they perform: which cache keys they resolve, in which order and
under which conditions, and which identifiers end up in which entity.  The
geometry attached to those identifiers (polygon vertices and angles,
computed with `sqrt`/`acos`/`asin`) is irrational-valued floating point
and lies outside this identity model; every branch condition that decides
*which* keys are resolved is rational arithmetic and is kept exactly. -/

def lead_width : ℚ := 1 / 2

def pad_drill : ℚ := 4 / 5

def default_line_width : ℚ := 1 / 5

/-- One LED configuration (`LedConfig.__init__`).  The derived name
strings `pkg_name` and `dev_name` are built from the numeric fields via
`format_ipc_dimension` (`common.py`, not among the provided sources, and
declared out of the core by the spec); they are carried as explicit
fields. -/
structure LedConfig where
  top_diameter : ℚ
  bot_diameter : ℚ
  lead_spacing : ℚ
  body_height : ℚ
  standoff : ℚ
  standoff_in_name : Bool
  body_color : String
  pkg_name : String
  dev_name : String

/-- Identifiers of one footprint pad created by `_add_footprint`: the pad
uuid, the referenced package pad, and the drill hole uuid (all three are
the same resolved identifier in the source). -/
structure FpPadIds where
  uuid : String
  package_pad : String
  hole_uuid : String

/-- Identifier skeleton of one generated footprint. -/
structure FootprintIds where
  uuid : String
  name : String
  pads : List FpPadIds

/-- Identifier skeleton of one generated package. -/
structure PkgIds where
  uuid : String
  pads : List PackagePad
  footprints : List FootprintIds

/-- `_add_footprint`: resolve the footprint uuid, then one pad per
`[('a', 1), ('c', -1)]`, each reusing its resolved uuid as the
`package_pad` reference and the hole uuid. -/
def addFootprintIds (c : Cache) (pkg_name identifier_suffix name : String) :
    FootprintIds × Cache :=
  let rF := uuid c "pkg" pkg_name ("footprint" ++ identifier_suffix)
  let rA := uuid rF.2 "pkg" pkg_name "pad-a"
  let rC := uuid rA.2 "pkg" pkg_name "pad-c"
  (⟨rF.1, name, [⟨rA.1, rA.1, rA.1⟩, ⟨rC.1, rC.1, rC.1⟩]⟩, rC.2)

/-- `_add_flattened_circle`, restricted to its cache effect: a full circle
(one key) when the radii coincide, otherwise one polygon key, or the
`-top`/`-bot` pair when `reduced`. -/
def addFlattenedCircleKeys (c : Cache) (pkg_name identifier : String)
    (outer_radius inner_radius : ℚ) (reduced : Bool) : Cache :=
  if outer_radius = inner_radius then
    (uuid c "pkg" pkg_name identifier).2
  else if reduced then
    (uuid (uuid c "pkg" pkg_name (identifier ++ "-top")).2 "pkg" pkg_name
      (identifier ++ "-bot")).2
  else
    (uuid c "pkg" pkg_name identifier).2

/-- `_add_vertical_footprint`: footprint with pads, the two flattened
circles, the courtyard, and the two stroke texts. -/
def addVerticalFootprintIds (c : Cache) (cfg : LedConfig)
    (identifier_suffix name : String) (pad_size : Size) : FootprintIds × Cache :=
  let is_small : Bool := decide (cfg.top_diameter < 5)
  let rFp := addFootprintIds c cfg.pkg_name identifier_suffix name
  let c1 := addFlattenedCircleKeys rFp.2 cfg.pkg_name
    ("polygon-doc" ++ identifier_suffix)
    (cfg.bot_diameter / 2 - default_line_width / 2)
    (cfg.top_diameter / 2 - default_line_width / 2) false
  let c2 := addFlattenedCircleKeys c1 cfg.pkg_name
    ("polygon-legend" ++ identifier_suffix)
    (cfg.bot_diameter / 2 + default_line_width / 2)
    (cfg.top_diameter / 2 + default_line_width / 2) is_small
  let courtyard_offset : ℚ := (if 10 ≤ cfg.bot_diameter then 1 else 4 / 5) / 2
  let pad_ring_x_bounds : ℚ := cfg.lead_spacing / 2 + pad_size.height / 2
  let c3 := addFlattenedCircleKeys c2 cfg.pkg_name
    ("polygon-courtyard" ++ identifier_suffix)
    (max (cfg.bot_diameter / 2) pad_ring_x_bounds + courtyard_offset)
    (max (cfg.top_diameter / 2) pad_ring_x_bounds + courtyard_offset) false
  let c4 := (uuid c3 "pkg" cfg.pkg_name ("text-name" ++ identifier_suffix)).2
  let c5 := (uuid c4 "pkg" cfg.pkg_name ("text-value" ++ identifier_suffix)).2
  (rFp.1, c5)

/-- The `polygon-legend2` short legend line, resolved only when
`split_legend` holds. -/
def addLegend2Opt (c : Cache) (pkg_name identifier_suffix : String)
    (split_legend : Bool) : Cache :=
  if split_legend then
    (uuid c "pkg" pkg_name ("polygon-legend2" ++ identifier_suffix)).2
  else c

/-- `_add_horizontal_footprint`: footprint with pads, documentation
outline, the two lead polygons, the split legend line when the body sits
too close to the pads, the legend outline, the courtyard and the two
stroke texts. -/
def addHorizontalFootprintIds (c : Cache) (cfg : LedConfig)
    (identifier_suffix name : String) (pad_size : Size)
    (body_height body_offset : ℚ) : FootprintIds × Cache :=
  let rFp := addFootprintIds c cfg.pkg_name identifier_suffix name
  let c1 := (uuid rFp.2 "pkg" cfg.pkg_name ("polygon-doc" ++ identifier_suffix)).2
  let c2 := (uuid c1 "pkg" cfg.pkg_name ("polygon-doc-a" ++ identifier_suffix)).2
  let c3 := (uuid c2 "pkg" cfg.pkg_name ("polygon-doc-c" ++ identifier_suffix)).2
  let body_bottom_y : ℚ := body_offset + default_line_width / 2 - default_line_width
  let pad_legend_clearance : ℚ := pad_size.width / 2 + default_line_width / 2 + 9 / 50
  let split_legend : Bool := decide (body_bottom_y < pad_legend_clearance)
  let c4 := addLegend2Opt c3 cfg.pkg_name identifier_suffix split_legend
  let c5 := (uuid c4 "pkg" cfg.pkg_name ("polygon-legend" ++ identifier_suffix)).2
  let c6 := (uuid c5 "pkg" cfg.pkg_name ("polygon-courtyard" ++ identifier_suffix)).2
  let c7 := (uuid c6 "pkg" cfg.pkg_name ("text-name" ++ identifier_suffix)).2
  let c8 := (uuid c7 "pkg" cfg.pkg_name ("text-value" ++ identifier_suffix)).2
  (rFp.1, c8)

/-- The conditional `Vertical, Large Pads` footprint: added only for
packages that are not small (`top_diameter < 5`). -/
def addLargeFootprintIds (c : Cache) (cfg : LedConfig) : List FootprintIds × Cache :=
  if cfg.top_diameter < 5 then ([], c)
  else
    let r := addVerticalFootprintIds c cfg "-large" "Vertical, Large Pads" ⟨5 / 2, 13 / 10⟩
    ([r.1], r.2)

/-- The body of the `generate_pkg` loop for one configuration: the package
uuid, the two package pads, then the footprint variants in source order
(`Vertical`, optionally `Vertical, Large Pads`, and the three horizontal
offsets). -/
def generate_pkg_one (cfg : LedConfig) (c : Cache) : PkgIds × Cache :=
  let rPkg := uuid c "pkg" cfg.pkg_name "pkg"
  let rA := uuid rPkg.2 "pkg" cfg.pkg_name "pad-a"
  let rC := uuid rA.2 "pkg" cfg.pkg_name "pad-c"
  let rV := addVerticalFootprintIds rC.2 cfg "" "Vertical" ⟨7 / 5, 7 / 5⟩
  let rL := addLargeFootprintIds rV.2 cfg
  let rH1 := addHorizontalFootprintIds rL.2 cfg "-h050" "Horizontal, 0.5 mm Offset"
    ⟨7 / 5, 7 / 5⟩ cfg.body_height (1 / 2)
  let rH2 := addHorizontalFootprintIds rH1.2 cfg "-h254" "Horizontal, 2.54 mm Offset"
    ⟨7 / 5, 7 / 5⟩ cfg.body_height (127 / 50)
  let rH3 := addHorizontalFootprintIds rH2.2 cfg "-h762" "Horizontal, 7.62 mm Offset"
    ⟨7 / 5, 7 / 5⟩ cfg.body_height (381 / 50)
  (⟨rPkg.1, [⟨rA.1, "A"⟩, ⟨rC.1, "C"⟩], [rV.1] ++ rL.1 ++ [rH1.1, rH2.1, rH3.1]⟩, rH3.2)

/-- One pad of a Device (`entities/device.py` `ComponentPad`, not among
the provided sources; modelled as the record of its constructor
arguments). -/
structure ComponentPadIds where
  pad_uuid : String
  signal : String

/-- Identifier skeleton of one generated device (`entities/device.py`
`Device`, modelled as the record of its constructor arguments). -/
structure DeviceIds where
  uuid : String
  component_uuid : String
  package_uuid : String
  pads : List ComponentPadIds

/-- The body of the `generate_dev` loop for one configuration: the device
uuid under category `dev`, then lookups of the package uuid and the two
package pad uuids under category `pkg` and the same `pkg_name`. -/
def generate_dev_one (cfg : LedConfig) (c : Cache) : DeviceIds × Cache :=
  let rDev := uuid c "dev" cfg.dev_name "dev"
  let rPkg := uuid rDev.2 "pkg" cfg.pkg_name "pkg"
  let rPa := uuid rPkg.2 "pkg" cfg.pkg_name "pad-a"
  let rPc := uuid rPa.2 "pkg" cfg.pkg_name "pad-c"
  (⟨rDev.1, "2b24b18d-bd95-4fb4-8fe6-bce1d020ead4", rPkg.1,
    [⟨rPa.1, "f1467b5c-cc7d-44b4-8076-d729f35b3a6a"⟩,
     ⟨rPc.1, "7b023430-b68f-403a-80b8-c7deb12e7a0c"⟩]⟩, rPc.2)

/-- The first configuration of the `__main__` block:
`LedConfig(3.00, 3.80, 2.54, 4.5, 1.0, False, 'Clear')`, with the two
derived names that `LedConfig.__init__` builds for it. -/
def ledCfgExample : LedConfig :=
  { top_diameter := 3
    bot_diameter := 19 / 5
    lead_spacing := 127 / 50
    body_height := 9 / 2
    standoff := 1
    standoff_in_name := false
    body_color := "Clear"
    pkg_name := "LED-THT-P254D300H450-CLEAR"
    dev_name := "LED ⌀3.0x4.5/2.54mm Clear" }

end GenerateLed

/-- A small concrete package (no footprints, no approvals) used to probe
the serializer on concrete input. -/
def basePkgExample : Package :=
  { uuid := "11111111-1111-1111-1111-111111111111"
    name := "Test Package"
    description := "A test"
    keywords := "test"
    author := "LibrePCB"
    version := "0.1"
    created := "2022-02-26T00:06:03Z"
    deprecated := false
    generated_by := ""
    categories := ["9c36c4be-3582-4f27-ae00-4c1229f1e870"]
    assembly_type := AssemblyType.AUTO }

/-- A concrete 3D model whose uuid sorts first. -/
def model3dA : Package3DModel := ⟨"aaaaaaaa-0000-0000-0000-000000000000", "Model A"⟩

/-- A concrete 3D model whose uuid sorts second. -/
def model3dB : Package3DModel := ⟨"bbbbbbbb-0000-0000-0000-000000000000", "Model B"⟩

namespace GenerateConnectors

/-- The cache key built by `generate_connectors.uuid`.  The Python
`if identifier:` test is falsy both for `None` and for the empty string. -/
def connKey (typ : String) (pin_number : Nat) (identifier : Option String) : String :=
  match identifier with
  | some s =>
      if s = "" then normStr (typ ++ "-1x" ++ toString pin_number)
      else normStr (typ ++ "-1x" ++ toString pin_number ++ "-" ++ s)
  | none => normStr (typ ++ "-1x" ++ toString pin_number)

/-- `generate_connectors.uuid`: resolve the normalized key. -/
def uuid (c : Cache) (typ : String) (pin_number : Nat) (identifier : Option String) :
    String × Cache :=
  resolve c (connKey typ pin_number identifier)

/-- Python `round(x, 2)` (banker's rounding at exact half-cent ties). -/
def pyRound2 (x : ℚ) : ℚ :=
  let y := x * 100
  let f := ⌊y⌋
  let r := y - f
  let n : ℤ :=
    if r < 1 / 2 then f
    else if 1 / 2 < r then f + 1
    else if f % 2 = 0 then f else f + 1
  (n : ℚ) / 100

/-- `generate_connectors.get_y`: y coordinate of pin `pin_number` (1-based)
out of `pin_count` pins at the given spacing. -/
def get_y (pin_number : Nat) (pin_count : Nat) (spacing : ℚ) : ℚ :=
  let mid : Nat := (pin_count + 1) / 2
  let offset : ℚ := if pin_count % 2 = 0 then spacing / 2 else 0
  pyRound2 ((pin_number : ℚ) * spacing - (mid : ℚ) * spacing - offset)

end GenerateConnectors

/-! ## Basic cache lemmas -/

theorem mint_inj {m n : Nat} (h : mint m = mint n) : m = n := by
  have hlen := congrArg (fun s => s.data.length) h
  simpa [mint] using hlen

theorem lookupCache_mem {t : List (String × String)} {k v : String}
    (h : lookupCache t k = some v) : (k, v) ∈ t := by
  induction t with
  | nil => simp [lookupCache] at h
  | cons p rest ih =>
    obtain ⟨pk, pv⟩ := p
    by_cases hk : pk = k
    · subst hk
      simp [lookupCache] at h
      simp [h]
    · simp [lookupCache, hk] at h
      exact List.mem_cons_of_mem _ (ih h)

theorem resolve_of_hit {c : Cache} {k v : String}
    (h : lookupCache c.table k = some v) : resolve c k = (v, c) := by
  simp [resolve, h]

theorem resolve_bound (c : Cache) (k : String) :
    lookupCache (resolve c k).2.table k = some (resolve c k).1 := by
  unfold resolve
  cases h : lookupCache c.table k with
  | some v => simp [h]
  | none => simp [h, lookupCache]

theorem resolve_preserves {c : Cache} {k v : String}
    (h : lookupCache c.table k = some v) (k' : String) :
    lookupCache (resolve c k').2.table k = some v := by
  unfold resolve
  cases h' : lookupCache c.table k' with
  | some w => simpa using h
  | none =>
    by_cases hk : k' = k
    · subst hk
      rw [h'] at h
      exact absurd h (by simp)
    · simpa [lookupCache, hk] using h

theorem resolveList_preserves {c : Cache} {k v : String}
    (h : lookupCache c.table k = some v) (ks : List String) :
    lookupCache (resolveList c ks).table k = some v := by
  induction ks generalizing c with
  | nil => simpa [resolveList]
  | cons k' ks ih =>
    simpa [resolveList] using ih (resolve_preserves h k')

theorem resolve_wf {c : Cache} (hwf : CacheWF c) (k : String) :
    CacheWF (resolve c k).2 := by
  obtain ⟨hrange, hinj⟩ := hwf
  cases h : lookupCache c.table k with
  | some v => simpa [resolve, h] using ⟨hrange, hinj⟩
  | none =>
    simp only [resolve, h]
    constructor
    · intro p hp
      rcases List.mem_cons.mp hp with hp | hp
      · exact ⟨c.ctr, Nat.lt_succ_self _, by rw [hp]⟩
      · obtain ⟨m, hm, hmv⟩ := hrange p hp
        exact ⟨m, Nat.lt_succ_of_lt hm, hmv⟩
    · intro p hp q hq hpq
      rcases List.mem_cons.mp hp with hp | hp <;>
        rcases List.mem_cons.mp hq with hq | hq
      · rw [hp, hq]
      · obtain ⟨m, hm, hmv⟩ := hrange q hq
        rw [hp] at hpq
        rw [hmv] at hpq
        exact absurd (mint_inj hpq) (by omega)
      · obtain ⟨m, hm, hmv⟩ := hrange p hp
        rw [hq] at hpq
        rw [hmv] at hpq
        exact absurd (mint_inj hpq.symm) (by omega)
      · exact hinj p hp q hq hpq

theorem resolve_ne_of_ne {c : Cache} (hwf : CacheWF c) {k1 k2 : String}
    (hne : k1 ≠ k2) :
    (resolve (resolve c k1).2 k2).1 ≠ (resolve c k1).1 := by
  have hwf1 : CacheWF (resolve c k1).2 := resolve_wf hwf k1
  have hb : lookupCache (resolve c k1).2.table k1 = some (resolve c k1).1 :=
    resolve_bound c k1
  revert hwf1 hb
  generalize resolve c k1 = r1
  obtain ⟨v1, c1⟩ := r1
  intro hwf1 hb
  simp only at hb hwf1 ⊢
  obtain ⟨hrange, hinj⟩ := hwf1
  cases h : lookupCache c1.table k2 with
  | some v =>
    simp only [resolve, h]
    intro hv
    exact hne (hinj _ (lookupCache_mem hb) _ (lookupCache_mem h) hv.symm)
  | none =>
    simp only [resolve, h]
    intro hv
    obtain ⟨m, hm, hmv⟩ := hrange _ (lookupCache_mem hb)
    simp only at hmv
    rw [hmv] at hv
    exact absurd (mint_inj hv) (by omega)

/-! ## Normalized key lemmas -/

theorem normStr_append (a b : String) : normStr (a ++ b) = normStr a ++ normStr b := by
  apply String.ext
  simp [normStr, String.data_append]

theorem strAppend_cancel_left {s a b : String} (h : s ++ a = s ++ b) : a = b := by
  apply String.ext
  have hd := congrArg String.data h
  rw [String.data_append, String.data_append] at hd
  exact List.append_cancel_left hd

namespace GenerateLed

theorem ledKey_inj_identifier {cat n i1 i2 : String}
    (he : ledKey cat n i1 = ledKey cat n i2) : normStr i1 = normStr i2 := by
  have h1 : ledKey cat n i1 = normStr (cat ++ "-" ++ n ++ "-") ++ normStr i1 :=
    normStr_append _ _
  have h2 : ledKey cat n i2 = normStr (cat ++ "-" ++ n ++ "-") ++ normStr i2 :=
    normStr_append _ _
  rw [h1, h2] at he
  exact strAppend_cancel_left he

theorem ledKey_ne {cat n i1 i2 : String} (h : normStr i1 ≠ normStr i2) :
    ledKey cat n i1 ≠ ledKey cat n i2 :=
  fun he => h (ledKey_inj_identifier he)

/-! ## Preservation of existing cache bindings by the LED generator -/

theorem uuid_preserves {c : Cache} {k v : String}
    (h : lookupCache c.table k = some v) (cat n i : String) :
    lookupCache (uuid c cat n i).2.table k = some v :=
  resolve_preserves h _

theorem addFootprintIds_preserves {c : Cache} {k v : String}
    (h : lookupCache c.table k = some v) (pn sfx nm : String) :
    lookupCache (addFootprintIds c pn sfx nm).2.table k = some v := by
  simp only [addFootprintIds, uuid]
  exact resolve_preserves (resolve_preserves (resolve_preserves h _) _) _

theorem addFlattenedCircleKeys_preserves {c : Cache} {k v : String}
    (h : lookupCache c.table k = some v) (pn ident : String) (o i : ℚ) (r : Bool) :
    lookupCache (addFlattenedCircleKeys c pn ident o i r).table k = some v := by
  unfold addFlattenedCircleKeys
  split
  · exact uuid_preserves h _ _ _
  · split
    · exact uuid_preserves (uuid_preserves h _ _ _) _ _ _
    · exact uuid_preserves h _ _ _

theorem addVerticalFootprintIds_preserves {c : Cache} {k v : String}
    (h : lookupCache c.table k = some v) (cfg : LedConfig) (sfx nm : String)
    (sz : Size) :
    lookupCache (addVerticalFootprintIds c cfg sfx nm sz).2.table k = some v := by
  simp only [addVerticalFootprintIds]
  exact uuid_preserves (uuid_preserves (addFlattenedCircleKeys_preserves
    (addFlattenedCircleKeys_preserves (addFlattenedCircleKeys_preserves
      (addFootprintIds_preserves h _ _ _) _ _ _ _ _) _ _ _ _ _) _ _ _ _ _) _ _ _) _ _ _

theorem addLegend2Opt_preserves {c : Cache} {k v : String}
    (h : lookupCache c.table k = some v) (pn sfx : String) (b : Bool) :
    lookupCache (addLegend2Opt c pn sfx b).table k = some v := by
  unfold addLegend2Opt
  split
  · exact uuid_preserves h _ _ _
  · exact h

theorem addHorizontalFootprintIds_preserves {c : Cache} {k v : String}
    (h : lookupCache c.table k = some v) (cfg : LedConfig) (sfx nm : String)
    (sz : Size) (bh bo : ℚ) :
    lookupCache (addHorizontalFootprintIds c cfg sfx nm sz bh bo).2.table k = some v := by
  simp only [addHorizontalFootprintIds]
  exact uuid_preserves (uuid_preserves (uuid_preserves (uuid_preserves
    (addLegend2Opt_preserves (uuid_preserves (uuid_preserves (uuid_preserves
      (addFootprintIds_preserves h _ _ _) _ _ _) _ _ _) _ _ _) _ _ _) _ _ _) _ _ _) _ _ _) _ _ _

theorem addLargeFootprintIds_preserves {c : Cache} {k v : String}
    (h : lookupCache c.table k = some v) (cfg : LedConfig) :
    lookupCache (addLargeFootprintIds c cfg).2.table k = some v := by
  unfold addLargeFootprintIds
  split
  · exact h
  · exact addVerticalFootprintIds_preserves h _ _ _ _

/-! ## Pad identifier assignment of the LED generator -/

theorem addFootprintIds_pads {c : Cache} {pn va vc : String}
    (ha : lookupCache c.table (ledKey "pkg" pn "pad-a") = some va)
    (hc : lookupCache c.table (ledKey "pkg" pn "pad-c") = some vc)
    (sfx nm : String) :
    (addFootprintIds c pn sfx nm).1.pads = [⟨va, va, va⟩, ⟨vc, vc, vc⟩] := by
  have ha1 := resolve_preserves ha (ledKey "pkg" pn ("footprint" ++ sfx))
  have hc1 := resolve_preserves hc (ledKey "pkg" pn ("footprint" ++ sfx))
  simp only [addFootprintIds, uuid, resolve_of_hit ha1, resolve_of_hit hc1]

theorem addVerticalFootprintIds_pads {c : Cache} {va vc : String}
    {cfg : LedConfig}
    (ha : lookupCache c.table (ledKey "pkg" cfg.pkg_name "pad-a") = some va)
    (hc : lookupCache c.table (ledKey "pkg" cfg.pkg_name "pad-c") = some vc)
    (sfx nm : String) (sz : Size) :
    (addVerticalFootprintIds c cfg sfx nm sz).1.pads = [⟨va, va, va⟩, ⟨vc, vc, vc⟩] := by
  simp only [addVerticalFootprintIds]
  exact addFootprintIds_pads ha hc _ _

theorem addHorizontalFootprintIds_pads {c : Cache} {va vc : String}
    {cfg : LedConfig}
    (ha : lookupCache c.table (ledKey "pkg" cfg.pkg_name "pad-a") = some va)
    (hc : lookupCache c.table (ledKey "pkg" cfg.pkg_name "pad-c") = some vc)
    (sfx nm : String) (sz : Size) (bh bo : ℚ) :
    (addHorizontalFootprintIds c cfg sfx nm sz bh bo).1.pads
      = [⟨va, va, va⟩, ⟨vc, vc, vc⟩] := by
  simp only [addHorizontalFootprintIds]
  exact addFootprintIds_pads ha hc _ _

theorem addLargeFootprintIds_pads {c : Cache} {va vc : String}
    {cfg : LedConfig}
    (ha : lookupCache c.table (ledKey "pkg" cfg.pkg_name "pad-a") = some va)
    (hc : lookupCache c.table (ledKey "pkg" cfg.pkg_name "pad-c") = some vc) :
    ∀ fp ∈ (addLargeFootprintIds c cfg).1, fp.pads = [⟨va, va, va⟩, ⟨vc, vc, vc⟩] := by
  unfold addLargeFootprintIds
  split
  · intro fp hfp
    simp at hfp
  · intro fp hfp
    simp at hfp
    subst hfp
    exact addVerticalFootprintIds_pads ha hc _ _ _

theorem addLargeFootprintIds_length (c : Cache) (cfg : LedConfig) :
    (addLargeFootprintIds c cfg).1.length = if cfg.top_diameter < 5 then 0 else 1 := by
  unfold addLargeFootprintIds
  split
  · simp [*]
  · simp [*]

set_option maxHeartbeats 1000000 in
/-- Combined identifier-assignment specification of the `generate_pkg`
loop body: the two package pads carry the identifiers resolved for
`pad-a`/`pad-c`; every footprint variant carries exactly those two
identifiers as its pad uuids (also as `package_pad` references and hole
uuids); the final cache binds the `pkg`/`pad-a`/`pad-c` keys to the
emitted identifiers; on a well-formed cache the two pad identifiers are
distinct. -/
theorem generate_pkg_one_spec (cfg : LedConfig) (c0 : Cache) :
    ∃ ua uc : String,
      (generate_pkg_one cfg c0).1.pads = [⟨ua, "A"⟩, ⟨uc, "C"⟩] ∧
      (∀ fp ∈ (generate_pkg_one cfg c0).1.footprints,
        fp.pads = [⟨ua, ua, ua⟩, ⟨uc, uc, uc⟩]) ∧
      (generate_pkg_one cfg c0).1.footprints.length
        = (if cfg.top_diameter < 5 then 4 else 5) ∧
      lookupCache (generate_pkg_one cfg c0).2.table (ledKey "pkg" cfg.pkg_name "pkg")
        = some (generate_pkg_one cfg c0).1.uuid ∧
      lookupCache (generate_pkg_one cfg c0).2.table (ledKey "pkg" cfg.pkg_name "pad-a")
        = some ua ∧
      lookupCache (generate_pkg_one cfg c0).2.table (ledKey "pkg" cfg.pkg_name "pad-c")
        = some uc ∧
      (CacheWF c0 → ua ≠ uc) := by
  simp only [generate_pkg_one, uuid]
  refine ⟨_, _, rfl, ?_, ?_, ?_, ?_, ?_, ?_⟩
  case' refine_3 =>
    exact addHorizontalFootprintIds_preserves (addHorizontalFootprintIds_preserves
      (addHorizontalFootprintIds_preserves (addLargeFootprintIds_preserves
        (addVerticalFootprintIds_preserves (resolve_preserves (resolve_preserves
          (resolve_bound c0 _) _) _) _ _ _ _) _) _ _ _ _ _ _) _ _ _ _ _ _) _ _ _ _ _ _
  case' refine_4 =>
    exact addHorizontalFootprintIds_preserves (addHorizontalFootprintIds_preserves
      (addHorizontalFootprintIds_preserves (addLargeFootprintIds_preserves
        (addVerticalFootprintIds_preserves (resolve_preserves
          (resolve_bound _ _) _) _ _ _ _) _) _ _ _ _ _ _) _ _ _ _ _ _) _ _ _ _ _ _
  case' refine_5 =>
    exact addHorizontalFootprintIds_preserves (addHorizontalFootprintIds_preserves
      (addHorizontalFootprintIds_preserves (addLargeFootprintIds_preserves
        (addVerticalFootprintIds_preserves
          (resolve_bound _ _) _ _ _ _) _) _ _ _ _ _ _) _ _ _ _ _ _) _ _ _ _ _ _
  · -- every footprint carries the two pad identifiers
    have hA0 : lookupCache (resolve (resolve (resolve c0
        (ledKey "pkg" cfg.pkg_name "pkg")).2 (ledKey "pkg" cfg.pkg_name "pad-a")).2
          (ledKey "pkg" cfg.pkg_name "pad-c")).2.table (ledKey "pkg" cfg.pkg_name "pad-a")
        = some (resolve (resolve c0 (ledKey "pkg" cfg.pkg_name "pkg")).2
          (ledKey "pkg" cfg.pkg_name "pad-a")).1 :=
      resolve_preserves (resolve_bound _ _) _
    have hC0 : lookupCache (resolve (resolve (resolve c0
        (ledKey "pkg" cfg.pkg_name "pkg")).2 (ledKey "pkg" cfg.pkg_name "pad-a")).2
          (ledKey "pkg" cfg.pkg_name "pad-c")).2.table (ledKey "pkg" cfg.pkg_name "pad-c")
        = some (resolve (resolve (resolve c0 (ledKey "pkg" cfg.pkg_name "pkg")).2
          (ledKey "pkg" cfg.pkg_name "pad-a")).2 (ledKey "pkg" cfg.pkg_name "pad-c")).1 :=
      resolve_bound _ _
    have hA1 := addVerticalFootprintIds_preserves hA0 cfg "" "Vertical" ⟨7 / 5, 7 / 5⟩
    have hC1 := addVerticalFootprintIds_preserves hC0 cfg "" "Vertical" ⟨7 / 5, 7 / 5⟩
    have hA2 := addLargeFootprintIds_preserves hA1 cfg
    have hC2 := addLargeFootprintIds_preserves hC1 cfg
    have hA3 := addHorizontalFootprintIds_preserves hA2 cfg "-h050"
      "Horizontal, 0.5 mm Offset" ⟨7 / 5, 7 / 5⟩ cfg.body_height (1 / 2)
    have hC3 := addHorizontalFootprintIds_preserves hC2 cfg "-h050"
      "Horizontal, 0.5 mm Offset" ⟨7 / 5, 7 / 5⟩ cfg.body_height (1 / 2)
    have hA4 := addHorizontalFootprintIds_preserves hA3 cfg "-h254"
      "Horizontal, 2.54 mm Offset" ⟨7 / 5, 7 / 5⟩ cfg.body_height (127 / 50)
    have hC4 := addHorizontalFootprintIds_preserves hC3 cfg "-h254"
      "Horizontal, 2.54 mm Offset" ⟨7 / 5, 7 / 5⟩ cfg.body_height (127 / 50)
    intro fp hfp
    simp only [List.mem_append, List.mem_singleton, List.mem_cons,
      List.not_mem_nil, or_false] at hfp
    rcases hfp with (hfp | hfp) | hfp | hfp | hfp
    · subst hfp
      exact addVerticalFootprintIds_pads hA0 hC0 _ _ _
    · exact addLargeFootprintIds_pads hA1 hC1 _ hfp
    · subst hfp
      exact addHorizontalFootprintIds_pads hA2 hC2 _ _ _ _ _
    · subst hfp
      exact addHorizontalFootprintIds_pads hA3 hC3 _ _ _ _ _
    · subst hfp
      exact addHorizontalFootprintIds_pads hA4 hC4 _ _ _ _ _
  · -- footprint count
    by_cases hs : cfg.top_diameter < 5 <;>
      simp [hs, addLargeFootprintIds_length]
  · -- pad identifiers are distinct when the cache is well-formed
    intro hwf
    exact (resolve_ne_of_ne (resolve_wf hwf _)
      (ledKey_ne (by decide))).symm

end GenerateLed

/-! ## Memoization lemmas -/

theorem resolve_twice (c : Cache) (k : String) :
    (resolve (resolve c k).2 k).1 = (resolve c k).1 := by
  rw [resolve_of_hit (resolve_bound c k)]

theorem resolve_stable (c : Cache) (k : String) (ks : List String) :
    (resolve (resolveList (resolve c k).2 ks) k).1 = (resolve c k).1 := by
  rw [resolve_of_hit (resolveList_preserves (resolve_bound c k) ks)]

theorem resolve_miss {c : Cache} {k : String}
    (h : lookupCache c.table k = none) :
    (resolve c k).1 = mint c.ctr ∧
    lookupCache (resolve c k).2.table k = some (mint c.ctr) := by
  constructor
  · simp [resolve, h]
  · simp [resolve, h, lookupCache]

/-! ## Serializer lemmas -/

theorem listLt_irrefl (l : List Char) : ¬l < l := by
  induction l with
  | nil => intro h; cases h
  | cons a as ih =>
    intro h
    cases h with
    | rel hlt => exact absurd hlt (lt_irrefl a)
    | cons h3 => exact ih h3

theorem foldl_add_pad (f : Footprint) (ps : List FootprintPad) :
    List.foldl Footprint.add_pad f ps = { f with pads := f.pads ++ ps } := by
  induction ps generalizing f with
  | nil => simp
  | cons p ps ih => rw [List.foldl_cons, ih]; simp [Footprint.add_pad]

theorem foldl_add_polygon (f : Footprint) (gs : List Polygon) :
    List.foldl Footprint.add_polygon f gs = { f with polygons := f.polygons ++ gs } := by
  induction gs generalizing f with
  | nil => simp
  | cons g gs ih => rw [List.foldl_cons, ih]; simp [Footprint.add_polygon]

theorem foldl_add_circle (f : Footprint) (cs : List Circle) :
    List.foldl Footprint.add_circle f cs = { f with circles := f.circles ++ cs } := by
  induction cs generalizing f with
  | nil => simp
  | cons c cs ih => rw [List.foldl_cons, ih]; simp [Footprint.add_circle]

theorem foldl_add_text (f : Footprint) (ts : List StrokeText) :
    List.foldl Footprint.add_text f ts = { f with texts := f.texts ++ ts } := by
  induction ts generalizing f with
  | nil => simp
  | cons t ts ih => rw [List.foldl_cons, ih]; simp [Footprint.add_text]

theorem foldl_pkg_add_pad (p : Package) (pads : List PackagePad) :
    List.foldl Package.add_pad p pads = { p with pads := p.pads ++ pads } := by
  induction pads generalizing p with
  | nil => simp
  | cons q qs ih => rw [List.foldl_cons, ih]; simp [Package.add_pad]

theorem foldl_pkg_add_footprint (p : Package) (fps : List Footprint) :
    List.foldl Package.add_footprint p fps = { p with footprints := p.footprints ++ fps } := by
  induction fps generalizing p with
  | nil => simp
  | cons q qs ih => rw [List.foldl_cons, ih]; simp [Package.add_footprint]

/-- `Package.__str__` decomposed at its opening tag and identifier. -/
theorem package_str_decomp (p : Package) :
    Package.str p
      = "(librepcb_package " ++ p.uuid ++ "\n"
        ++ (p.metaStr
          ++ indentEntities (p.pads.map PackagePad.str)
          ++ indentEntities (p.models_3d.map Package3DModel.str)
          ++ indentEntities (p.footprints.map Footprint.str)
          ++ indentEntities (pySorted (fun a b => !pyStrLt b a) p.approvals)
          ++ ")") := by
  simp [Package.str, String.append_assoc]

/-! ## The claims -/

set_option maxRecDepth 8192 in
/-- C1: the claim asserts that `str()` of a Package is independent of the
construction order of its unordered children (3D-model references and
approval strings).  This evaluates the serializer at the failing input:
two packages holding the same two 3D models, added in the two orders, are
permutations of each other yet serialize to different strings, because
`Package.__str__` emits `models_3d` in insertion order without the
`sorted()` that `Footprint.__str__` applies and that
`Package3DModel.__lt__` exists to support. -/
theorem claim_C1_models_insertion_order_breaks_determinism :
    ((basePkgExample.add_3d_model model3dA).add_3d_model model3dB).models_3d.Perm
      ((basePkgExample.add_3d_model model3dB).add_3d_model model3dA).models_3d ∧
    Package.str ((basePkgExample.add_3d_model model3dA).add_3d_model model3dB)
      ≠ Package.str ((basePkgExample.add_3d_model model3dB).add_3d_model model3dA) := by
  constructor
  · decide
  · decide

/-- C4: ordered children are emitted in insertion order: a footprint built
by any sequence of `add_pad`/`add_polygon`/`add_circle`/`add_text` calls
serializes those children exactly in call order, and a package built by
`add_pad`/`add_footprint` calls lists its package pads and footprints in
call order. -/
theorem claim_C4_ordered_children_insertion_order :
    (∀ (f : Footprint) (ps : List FootprintPad) (gs : List Polygon)
        (cs : List Circle) (ts : List StrokeText),
      Footprint.str
          (List.foldl Footprint.add_text
            (List.foldl Footprint.add_circle
              (List.foldl Footprint.add_polygon
                (List.foldl Footprint.add_pad f ps) gs) cs) ts)
        = "(footprint " ++ f.uuid ++ "\n"
          ++ " " ++ nameStr f.name ++ "\n"
          ++ " " ++ descriptionStr f.description ++ "\n"
          ++ " " ++ position3DStr f.position_3d ++ " " ++ rotation3DStr f.rotation_3d ++ "\n"
          ++ indentEntities ((pySorted (fun a b => !Footprint3DModel.ltB b a)
              f.models_3d).map Footprint3DModel.str)
          ++ indentEntities ((f.pads ++ ps).map FootprintPad.str)
          ++ indentEntities ((f.polygons ++ gs).map Polygon.str)
          ++ indentEntities ((f.circles ++ cs).map Circle.str)
          ++ indentEntities ((f.texts ++ ts).map StrokeText.str)
          ++ ")") ∧
    (∀ (p : Package) (pads : List PackagePad) (fps : List Footprint),
      Package.str (List.foldl Package.add_footprint (List.foldl Package.add_pad p pads) fps)
        = "(librepcb_package " ++ p.uuid ++ "\n"
          ++ Package.metaStr p
          ++ indentEntities ((p.pads ++ pads).map PackagePad.str)
          ++ indentEntities (p.models_3d.map Package3DModel.str)
          ++ indentEntities ((p.footprints ++ fps).map Footprint.str)
          ++ indentEntities (pySorted (fun a b => !pyStrLt b a) p.approvals)
          ++ ")") := by
  constructor
  · intro f ps gs cs ts
    rw [foldl_add_pad, foldl_add_polygon, foldl_add_circle, foldl_add_text]
    rfl
  · intro p pads fps
    rw [foldl_pkg_add_pad, foldl_pkg_add_footprint]
    rfl

/-- C5: the sibling comparison of `Package3DModel` is lexicographic on
(uuid, then name) and its equality compares both fields, while
`Footprint3DModel` compares by uuid alone. -/
theorem claim_C5_sibling_ordering :
    (∀ a b : Package3DModel,
      Package3DModel.ltB a b = true
        ↔ (a.uuid.data < b.uuid.data ∨ (a.uuid = b.uuid ∧ a.name.data < b.name.data))) ∧
    (∀ a b : Package3DModel,
      Package3DModel.eqB a b = true ↔ (a.uuid = b.uuid ∧ a.name = b.name)) ∧
    (∀ a b : Footprint3DModel,
      Footprint3DModel.ltB a b = true ↔ a.uuid.data < b.uuid.data) ∧
    (∀ a b : Footprint3DModel,
      Footprint3DModel.eqB a b = true ↔ a.uuid = b.uuid) := by
  refine ⟨fun a b => ?_, fun a b => ?_, fun a b => ?_, fun a b => ?_⟩
  · by_cases h : a.uuid = b.uuid
    · simp [Package3DModel.ltB, h, pyStrLt, listLt_irrefl]
    · simp [Package3DModel.ltB, h, pyStrLt]
  · simp [Package3DModel.eqB]
  · simp [Footprint3DModel.ltB, pyStrLt]
  · simp [Footprint3DModel.eqB]

/-- C6: the serializer is total over every well-formed package tree: it is
a total function in this embedding (no failure branch exists), and for
every package it returns the document string opening with the
`librepcb_package` tag. -/
theorem claim_C6_serializer_total (p : Package) :
    ∃ rest : String, Package.str p = "(librepcb_package " ++ rest :=
  ⟨p.uuid ++ "\n"
      ++ (p.metaStr
        ++ indentEntities (p.pads.map PackagePad.str)
        ++ indentEntities (p.models_3d.map Package3DModel.str)
        ++ indentEntities (p.footprints.map Footprint.str)
        ++ indentEntities (pySorted (fun a b => !pyStrLt b a) p.approvals)
        ++ ")"),
    by rw [package_str_decomp]; simp [String.append_assoc]⟩

/-- C7: `get_y` places the four pads of a 1x4 connector at
-3.81, -1.27, 1.27 and 3.81 mm for a 2.54 mm spacing. -/
theorem claim_C7_connector_pad_positions :
    GenerateConnectors.get_y 1 4 (254 / 100) = -(381 / 100) ∧
    GenerateConnectors.get_y 2 4 (254 / 100) = -(127 / 100) ∧
    GenerateConnectors.get_y 3 4 (254 / 100) = 127 / 100 ∧
    GenerateConnectors.get_y 4 4 (254 / 100) = 381 / 100 := by
  refine ⟨?_, ?_, ?_, ?_⟩ <;>
    norm_num [GenerateConnectors.get_y, GenerateConnectors.pyRound2]

/-- C8: `Package.serialize` writes exactly one version marker file
(content `1` plus newline) and one document file into the directory named
by the package identifier; the document content is `str(package)`
followed by a final newline and opens with the `librepcb_package` tag
and that identifier. -/
theorem claim_C8_output_layout (p : Package) (output_directory : String) :
    (Package.serializeWrites p output_directory).map Prod.fst
      = [pathJoin (pathJoin output_directory p.uuid) ".librepcb-pkg",
         pathJoin (pathJoin output_directory p.uuid) "package.lp"] ∧
    (Package.serializeWrites p output_directory).map Prod.snd
      = ["1\n", Package.str p ++ "\n"] ∧
    ∃ rest : String,
      Package.str p ++ "\n" = "(librepcb_package " ++ p.uuid ++ "\n" ++ rest ++ "\n" := by
  refine ⟨rfl, rfl, ?_⟩
  refine ⟨p.metaStr
    ++ indentEntities (p.pads.map PackagePad.str)
    ++ indentEntities (p.models_3d.map Package3DModel.str)
    ++ indentEntities (p.footprints.map Footprint.str)
    ++ indentEntities (pySorted (fun a b => !pyStrLt b a) p.approvals)
    ++ ")", ?_⟩
  rw [package_str_decomp]

/-- C3: both cache-backed `uuid` functions are memoized within a run:
calling twice (immediately, or after any other resolutions) returns the
identifier of the first call; a first miss mints the fresh identifier and
stores it under the key. -/
theorem claim_C3_uuid_memoized :
    (∀ (c : Cache) (cat n i : String) (ks : List String),
      (GenerateLed.uuid (GenerateLed.uuid c cat n i).2 cat n i).1
          = (GenerateLed.uuid c cat n i).1 ∧
      (GenerateLed.uuid (resolveList (GenerateLed.uuid c cat n i).2 ks) cat n i).1
          = (GenerateLed.uuid c cat n i).1 ∧
      (lookupCache c.table (GenerateLed.ledKey cat n i) = none →
        (GenerateLed.uuid c cat n i).1 = mint c.ctr ∧
        lookupCache (GenerateLed.uuid c cat n i).2.table (GenerateLed.ledKey cat n i)
          = some (mint c.ctr))) ∧
    (∀ (c : Cache) (typ : String) (pin : Nat) (ident : Option String) (ks : List String),
      (GenerateConnectors.uuid (GenerateConnectors.uuid c typ pin ident).2 typ pin ident).1
          = (GenerateConnectors.uuid c typ pin ident).1 ∧
      (GenerateConnectors.uuid (resolveList (GenerateConnectors.uuid c typ pin ident).2 ks)
          typ pin ident).1 = (GenerateConnectors.uuid c typ pin ident).1 ∧
      (lookupCache c.table (GenerateConnectors.connKey typ pin ident) = none →
        (GenerateConnectors.uuid c typ pin ident).1 = mint c.ctr ∧
        lookupCache (GenerateConnectors.uuid c typ pin ident).2.table
          (GenerateConnectors.connKey typ pin ident) = some (mint c.ctr))) := by
  constructor
  · intro c cat n i ks
    exact ⟨resolve_twice _ _, resolve_stable _ _ _, fun h => resolve_miss h⟩
  · intro c typ pin ident ks
    exact ⟨resolve_twice _ _, resolve_stable _ _ _, fun h => resolve_miss h⟩

/-- Witness for C3: on the empty cache the LED key for `pad-1` is a miss,
and the first call mints the first fresh identifier. -/
theorem claim_C3_witness :
    lookupCache emptyCache.table
      (GenerateLed.ledKey "pkg" "LED-THT-P254D300H450-CLEAR" "pad-1") = none ∧
    (GenerateLed.uuid emptyCache "pkg" "LED-THT-P254D300H450-CLEAR" "pad-1").1
      = mint emptyCache.ctr := by
  refine ⟨rfl, ?_⟩
  exact ((claim_C3_uuid_memoized.1 emptyCache "pkg" "LED-THT-P254D300H450-CLEAR"
    "pad-1" []).2.2 rfl).1

namespace GenerateLed

/-- C9: the cache key of `generate_led.uuid` is the lowercased,
space-to-tilde-substituted join of category, name and identifier, so
inputs that agree up to letter case and the space versus tilde
substitution resolve to the same key and the same identifier (from the
same cache state, and across consecutive calls). -/
theorem claim_C9_key_normalization (c : Cache) (cat1 n1 i1 cat2 n2 i2 : String)
    (hcat : normStr cat1 = normStr cat2) (hn : normStr n1 = normStr n2)
    (hi : normStr i1 = normStr i2) :
    ledKey cat1 n1 i1 = ledKey cat2 n2 i2 ∧
    (uuid c cat1 n1 i1).1 = (uuid c cat2 n2 i2).1 ∧
    (uuid (uuid c cat1 n1 i1).2 cat2 n2 i2).1 = (uuid c cat1 n1 i1).1 := by
  have e1 : ∀ a b d : String, normStr (a ++ "-" ++ b ++ "-" ++ d)
      = normStr a ++ normStr "-" ++ normStr b ++ normStr "-" ++ normStr d := by
    intro a b d
    rw [normStr_append (a ++ "-" ++ b ++ "-") d, normStr_append (a ++ "-" ++ b) "-",
      normStr_append (a ++ "-") b, normStr_append a "-"]
  have hkey : ledKey cat1 n1 i1 = ledKey cat2 n2 i2 := by
    unfold ledKey
    rw [e1, e1, hcat, hn, hi]
  refine ⟨hkey, ?_, ?_⟩
  · simp only [uuid, hkey]
  · simp only [uuid, hkey, resolve_twice]

/-- Witness for C9: `uuid('pkg', 'Foo Bar', '1')` and
`uuid('pkg', 'foo~bar', '1')` resolve to the same identifier. -/
theorem claim_C9_witness :
    normStr "Foo Bar" = normStr "foo~bar" ∧
    (uuid emptyCache "pkg" "Foo Bar" "1").1
      = (uuid emptyCache "pkg" "foo~bar" "1").1 := by
  refine ⟨by decide, ?_⟩
  exact (claim_C9_key_normalization emptyCache "pkg" "Foo Bar" "1" "pkg" "foo~bar" "1"
    rfl (by decide) rfl).2.1

/-- C2 counterexample: the claim asserts pairwise-distinct uuids across
all FootprintPads of all footprint variants and all PackagePads.  On the
first `__main__` configuration and a cold cache, every one of the four
footprint variants carries exactly the package pad uuid pair as its own
pad uuids, so FootprintPads share uuids with PackagePads and with the
corresponding pads of the other variants. -/
theorem claim_C2_counterexample :
    (generate_pkg_one ledCfgExample emptyCache).1.footprints.map
        (fun fp => fp.pads.map FpPadIds.uuid)
      = List.replicate 4
        ((generate_pkg_one ledCfgExample emptyCache).1.pads.map PackagePad.uuid) := by
  obtain ⟨ua, uc, hpads, hfps, hlen, _, _, _, _⟩ :=
    generate_pkg_one_spec ledCfgExample emptyCache
  have hlen4 : (generate_pkg_one ledCfgExample emptyCache).1.footprints.length = 4 := by
    rw [hlen]
    norm_num [ledCfgExample]
  rw [hpads]
  refine List.eq_replicate_iff.mpr ⟨by simpa using hlen4, ?_⟩
  intro x hx
  obtain ⟨fp, hfp, rfl⟩ := List.mem_map.mp hx
  rw [hfps fp hfp]
  rfl

/-- C2 amended: for every configuration and well-formed starting cache,
the two PackagePads carry distinct uuids and within every footprint
variant the two FootprintPads carry distinct uuids; however each
FootprintPad deliberately reuses the uuid of the PackagePad it references
(`pad-a`/`pad-c` cache keys are shared), so corresponding pads across
variants and their package pads share one identifier. -/
theorem claim_C2_amended (cfg : LedConfig) (c0 : Cache) (hwf : CacheWF c0) :
    ∃ ua uc : String, ua ≠ uc ∧
      (generate_pkg_one cfg c0).1.pads.map PackagePad.uuid = [ua, uc] ∧
      ∀ fp ∈ (generate_pkg_one cfg c0).1.footprints,
        fp.pads.map FpPadIds.uuid = [ua, uc] ∧
        fp.pads.map FpPadIds.package_pad = [ua, uc] := by
  obtain ⟨ua, uc, hpads, hfps, _, _, _, _, hne⟩ := generate_pkg_one_spec cfg c0
  refine ⟨ua, uc, hne hwf, by rw [hpads]; rfl, fun fp hfp => ?_⟩
  rw [hfps fp hfp]
  exact ⟨rfl, rfl⟩

/-- Witness for the amended C2: the empty cache is well-formed and the
amended statement holds on the first `__main__` configuration. -/
theorem claim_C2_amended_witness :
    CacheWF emptyCache ∧
    ∃ ua uc : String, ua ≠ uc ∧
      (generate_pkg_one ledCfgExample emptyCache).1.pads.map PackagePad.uuid = [ua, uc] ∧
      ∀ fp ∈ (generate_pkg_one ledCfgExample emptyCache).1.footprints,
        fp.pads.map FpPadIds.uuid = [ua, uc] ∧
        fp.pads.map FpPadIds.package_pad = [ua, uc] := by
  have hwf : CacheWF emptyCache := by
    constructor <;> simp [emptyCache]
  exact ⟨hwf, claim_C2_amended ledCfgExample emptyCache hwf⟩

/-- C10: running `generate_dev` after `generate_pkg` in the same process
over the same configuration, the package uuid stored in the device equals
the generated package uuid, and the component pad references equal the
package pad uuids, because both memoize through the same cache keys. -/
theorem claim_C10_cross_document_integrity (cfg : LedConfig) (c0 : Cache) :
    (generate_dev_one cfg (generate_pkg_one cfg c0).2).1.package_uuid
      = (generate_pkg_one cfg c0).1.uuid ∧
    (generate_dev_one cfg (generate_pkg_one cfg c0).2).1.pads.map ComponentPadIds.pad_uuid
      = (generate_pkg_one cfg c0).1.pads.map PackagePad.uuid := by
  obtain ⟨ua, uc, hpads, hfp, hlen, hP, hA, hC, hne⟩ := generate_pkg_one_spec cfg c0
  have hP1 := resolve_preserves hP (ledKey "dev" cfg.dev_name "dev")
  have hA1 := resolve_preserves hA (ledKey "dev" cfg.dev_name "dev")
  have hC1 := resolve_preserves hC (ledKey "dev" cfg.dev_name "dev")
  constructor
  · simp only [generate_dev_one, uuid, resolve_of_hit hP1]
  · simp only [generate_dev_one, uuid, resolve_of_hit hP1, resolve_of_hit hA1,
      resolve_of_hit hC1, hpads]
    rfl

end GenerateLed

end LibrePCB
